import Mathlib

/-!
Verification of the RemoteMCP request-to-tool-resolution pipeline
(`Client_With_FastMCP/Backend/backend.py`): the tool-catalog aggregator,
the Gemini decision engine, and the dispatcher behind `POST /interpret`.

The Python code is shallowly embedded: JSON values become the inductive
`JVal`, a backend (`fastmcp.Client` plus the server behind it) becomes the
`Backend` structure recording the outcome of each operation the handler
performs on it, and the handler itself becomes the pure function
`interpret`, which additionally returns the ordered trace of external
interactions (connections opened, catalog fetches, model calls, tool
invocations) so that non-interaction properties are statable.
-/

/-- A JSON-compatible value, as produced by `json.loads`.  Numbers are
modelled as integers; no claim depends on fractional values. -/
inductive JVal where
  | null
  | bool (b : Bool)
  | num (n : Int)
  | str (s : String)
  | arr (xs : List JVal)
  | obj (fields : List (String × JVal))
deriving Repr

/-- Python `dict.get(k)`: the value at the first matching key, if any. -/
def dictGet (d : List (String × JVal)) (k : String) : Option JVal :=
  (d.find? (fun p => p.1 = k)).map (fun p => p.2)

/-- Python truthiness of a JSON value: `None`, `False`, `0`, `""`, `[]`
and `{}` are falsy, everything else truthy. -/
def pyTruthy : JVal → Bool
  | JVal.null => false
  | JVal.bool b => b
  | JVal.num n => n != 0
  | JVal.str s => !s.isEmpty
  | JVal.arr xs => !xs.isEmpty
  | JVal.obj fs => !fs.isEmpty

/-- Truthiness of `d.get(k)`: a missing key behaves like `None`. -/
def pyTruthyOpt : Option JVal → Bool
  | none => false
  | some v => pyTruthy v

/-- Python `v == s` for a JSON value `v` and a string literal `s`:
true exactly when `v` is that string (no cross-type equalities hold
between the JSON types and `str`). -/
def strEqJ : Option JVal → String → Bool
  | some (JVal.str s2), s => s2 = s
  | _, _ => false

/-- Python `str(v)` for the JSON values that can reach an f-string in the
handler (the tool name there is always a string; scalars are included for
completeness, container reprs never occur at those sites). -/
def pyStr : JVal → String
  | JVal.null => "None"
  | JVal.bool true => "True"
  | JVal.bool false => "False"
  | JVal.num n => toString n
  | JVal.str s => s
  | JVal.arr _ => ""
  | JVal.obj _ => ""

/-- One property entry of a tool input schema, holding the two fields the
prompt renderer reads: `schema_dict.get('type')` and
`schema_dict.get('description')` (`none` = key absent). -/
structure ParamSchema where
  type? : Option String
  desc? : Option String
deriving Repr, DecidableEq

/-- The `properties` map of a tool input schema,
`tool.inputSchema.get('properties', {})` in the source. -/
structure InputSchema where
  properties : List (String × ParamSchema)
deriving Repr, DecidableEq

/-- A tool catalog entry as returned by `Client.list_tools()`. -/
structure ToolDescriptor where
  name : String
  description : String
  inputSchema : InputSchema
deriving Repr, DecidableEq

/-- A configured backend: the `fastmcp.Client` built from one endpoint
address together with the behaviour, during this request, of the server
behind it.  `connectOk` is whether `stack.enter_async_context(c)` succeeds;
`listToolsAgg` and `listToolsScan` are the outcomes of the first
(aggregation) and second (ownership-scan) `c.list_tools()` calls (`none` =
the call raises); `callTool nm ps` is the outcome of
`c.call_tool(nm, ps)` (`Except.error e` = it raises with message `e`).
`base_url` is the client attribute used for `executed_from`; `reprStr`
is `str(client)`, used in the tool-error detail. -/
structure Backend where
  base_url : String
  reprStr : String
  connectOk : Bool
  listToolsAgg : Option (List ToolDescriptor)
  listToolsScan : Option (List ToolDescriptor)
  callTool : JVal → JVal → Except String JVal

/-- One external interaction performed by the handler. -/
inductive Event where
  | connect (url : String)
  | listAgg (url : String)
  | listScan (url : String)
  | modelCall
  | invoke (url : String)
deriving Repr, DecidableEq

/-- Whether an event is a tool invocation. -/
def Event.isInvoke : Event → Bool
  | Event.invoke _ => true
  | _ => false

/-- Whether an event is an ownership-scan catalog fetch. -/
def Event.isListScan : Event → Bool
  | Event.listScan _ => true
  | _ => false

/-- The outcome of the HTTP handler: a 200 body, a raised `HTTPException`
(status plus detail), or an exception escaping the handler uncaught. -/
inductive HTTPResult where
  | ok (body : List (String × JVal))
  | httpError (status : Nat) (detail : String)
  | unhandled (msg : String)
deriving Repr

/-- The aggregation loop (backend.py lines 107-116): for each client in
configuration order, enter its async context (NOT inside the try: a
connect failure propagates and aborts the request), then `list_tools()`
inside a try whose except clause merely logs, so a listing failure
contributes zero descriptors and the loop continues.  Returns the merged
catalog (or the escaped exception) and the interaction trace. -/
def gatherTools : List Backend → Except String (List ToolDescriptor) × List Event
  | [] => (Except.ok [], [])
  | c :: rest =>
    if c.connectOk then
      let here := match c.listToolsAgg with
        | some ts => ts
        | none => []
      let (r, evs) := gatherTools rest
      (r.map (fun ts => here ++ ts),
       Event.connect c.base_url :: Event.listAgg c.base_url :: evs)
    else
      (Except.error "connect failed", [Event.connect c.base_url])

/-- The ownership scan (backend.py lines 127-135): iterate clients in
configuration order, re-fetch each catalog, select the first client whose
catalog contains a tool whose `name` equals the decided tool value; a
client whose fetch raises is skipped (`except Exception: continue`). -/
def findOwner (tool_name : Option JVal) :
    List Backend → Option Backend × List Event
  | [] => (none, [])
  | c :: rest =>
    match c.listToolsScan with
    | some ts =>
      if ts.any (fun t => strEqJ tool_name t.name) then
        (some c, [Event.listScan c.base_url])
      else
        let (r, evs) := findOwner tool_name rest
        (r, Event.listScan c.base_url :: evs)
    | none =>
      let (r, evs) := findOwner tool_name rest
      (r, Event.listScan c.base_url :: evs)

/-- Whether a backend owns tool `nm` at scan time: its second
`list_tools()` succeeds and the returned catalog contains the name. -/
def ownsTool (nm : String) (c : Backend) : Bool :=
  match c.listToolsScan with
  | some ts => ts.any (fun t => t.name = nm)
  | none => false

/-- Decimal 39 is the apostrophe character, kept out of string literals. -/
def apos : String := String.singleton (Char.ofNat 39)

/-- Prompt rendering of one declared parameter (backend.py lines 37-42):
`'name' (type) - description`, with type defaulting to `string` and the
`- description` part present only for a truthy description. -/
def renderParam (p : String × ParamSchema) : String :=
  let param_type := p.2.type?.getD "string"
  let param_desc_text := (p.2.desc?.getD "")
  let desc_part := if param_desc_text ≠ "" then " - " ++ param_desc_text else ""
  apos ++ p.1 ++ apos ++ " (" ++ param_type ++ ")" ++ desc_part

/-- The parameters line of a tool block: semicolon-joined rendered
parameters, or `None` when the tool declares none. -/
def paramsLine (tool : ToolDescriptor) : String :=
  let param_desc := tool.inputSchema.properties.map renderParam
  if param_desc.isEmpty then "None" else String.intercalate "; " param_desc

/-- The human-readable block rendered for one tool descriptor
(backend.py lines 35-46). -/
def toolBlock (tool : ToolDescriptor) : String :=
  "- Name: " ++ tool.name ++ "\n  Description: " ++ tool.description
    ++ "\n  Parameters: " ++ paramsLine tool

/-- The full `system_instruction` string (backend.py lines 49-58),
with the current date passed in as text. -/
def system_instruction (today : String) (tools : List ToolDescriptor) : String :=
  let tools_context := String.intercalate "\n" (tools.map toolBlock)
  "Assume today is " ++ today ++ ". "
    ++ "If the user refers to a month only (e.g., " ++ apos ++ "October expenses"
    ++ apos ++ "), use the current year. "
    ++ "You are an AI financial assistant. "
    ++ "Respond ONLY with a JSON object matching the provided schema "
    ++ String.singleton (Char.ofNat 8212) ++ " no markdown or text. "
    ++ "If no tool fits, use " ++ apos ++ "None" ++ apos ++ " and " ++ apos
    ++ "\x7b\x7d" ++ apos ++ ".\n"
    ++ "---TOOLS---\n" ++ tools_context ++ "\n---END_TOOLS---"

/-- The fallback decision returned when the model call or JSON parsing
fails. -/
def fallbackDecision : JVal :=
  JVal.obj [("tool", JVal.null), ("params", JVal.obj [])]

/-- The decision engine `interpret_with_gemini` (backend.py lines 33-75):
build the system instruction, call the model (`generate si msg` is the
outcome of `generate_content`, `Except.error` = it raises), parse the
returned text with `jsonLoads` (= `json.loads`, `Except.error` = it
raises); any exception in the try body yields the fallback decision
`\x7btool: null, params: \x7b\x7d\x7d` instead of propagating. -/
def interpret_with_gemini (today : String) (user_message : JVal)
    (tools : List ToolDescriptor)
    (generate : String → JVal → Except String String)
    (jsonLoads : String → Except String JVal) : JVal :=
  let si := system_instruction today tools
  match generate si user_message >>= jsonLoads with
  | Except.ok v => v
  | Except.error _ => fallbackDecision

/-- Tool execution on the selected client (backend.py lines 140-153):
`call_tool(tool_name, params)`; on success the envelope
`\x7btool, params, result, executed_from\x7d`, on exception an
`HTTPException(500)` whose detail interpolates the tool name, the
client (its `str`) and the exception. -/
def executeTool (c : Backend) (tn params : JVal) : HTTPResult :=
  match c.callTool tn params with
  | Except.ok res =>
    HTTPResult.ok [("tool", tn), ("params", params), ("result", res),
      ("executed_from", JVal.str c.base_url)]
  | Except.error e =>
    HTTPResult.httpError 500
      ("Error calling tool " ++ apos ++ pyStr tn ++ apos ++ " on "
        ++ c.reprStr ++ ": " ++ e)

/-- Everything after the decision is parsed (backend.py lines 118-153):
read `tool` and `params` from the decision dict (`params` defaults to
an empty object), short-circuit on a falsy or `"None"` tool, otherwise
scan for the owner, report a miss, or invoke the tool via `executeTool`.
A non-dict decision makes `.get` raise `AttributeError`, escaping the
handler. -/
def dispatch (clients : List Backend) (llm_result : JVal) :
    HTTPResult × List Event :=
  match llm_result with
  | JVal.obj d =>
    let tool_name := dictGet d "tool"
    let params := (dictGet d "params").getD (JVal.obj [])
    if !pyTruthyOpt tool_name || strEqJ tool_name "None" then
      (HTTPResult.ok [("tool", JVal.null), ("params", JVal.obj []),
        ("result", JVal.str "No matching tool found.")], [])
    else
      match findOwner tool_name clients with
      | (none, evs) =>
        (HTTPResult.ok [("tool", tool_name.getD JVal.null), ("params", params),
          ("result", JVal.str "Tool not found in any client.")], evs)
      | (some c, evs) =>
        (executeTool c (tool_name.getD JVal.null) params,
         evs ++ [Event.invoke c.base_url])
  | _ => (HTTPResult.unhandled "AttributeError", [])

/-- The environment variables the handler reads. -/
structure Env where
  GOOGLE_API_KEY : Option String
  FASTMCP_URL : Option String
  FASTMCP_FOODCARD_URL : Option String

/-- The `POST /interpret` handler (backend.py lines 81-153).  `mkClient`
models `Client(url)` together with the behaviour of the server at that
address during this request; `generate`/`jsonLoads` model the model call
and `json.loads`.  Returns the HTTP outcome and the ordered trace of
external interactions. -/
def interpret (env : Env) (mkClient : String → Backend) (today : String)
    (generate : String → JVal → Except String String)
    (jsonLoads : String → Except String JVal)
    (user_input : List (String × JVal)) : HTTPResult × List Event :=
  let message := dictGet user_input "message"
  if !pyTruthyOpt message then
    (HTTPResult.httpError 400 ("Missing " ++ apos ++ "message" ++ apos ++ " field"), [])
  else
    match env.GOOGLE_API_KEY with
    | none => (HTTPResult.httpError 500 "GOOGLE_API_KEY not set", [])
    | some _ =>
      let clients := (env.FASTMCP_URL.map mkClient).toList
        ++ (env.FASTMCP_FOODCARD_URL.map mkClient).toList
      if clients.isEmpty then
        (HTTPResult.httpError 500 "No MCP endpoints configured", [])
      else
        match gatherTools clients with
        | (Except.error e, evs) => (HTTPResult.unhandled e, evs)
        | (Except.ok all_tools, evs) =>
          let llm_result :=
            interpret_with_gemini today (message.getD JVal.null) all_tools
              generate jsonLoads
          let (r, evs2) := dispatch clients llm_result
          (r, evs ++ Event.modelCall :: evs2)

/-- The trace the aggregation loop leaves behind for a run in which every
connection succeeds: one connect and one catalog fetch per backend, in
configuration order. -/
def aggTrace (clients : List Backend) : List Event :=
  clients.flatMap (fun c => [Event.connect c.base_url, Event.listAgg c.base_url])

/-! Concrete sample worlds, used to instantiate the theorems below on
closed inputs. -/

/-- A descriptor with the given name and no declared parameters. -/
def tdOf (nm : String) : ToolDescriptor :=
  { name := nm, description := "", inputSchema := { properties := [] } }

/-- A healthy backend exposing catalog `ts` and answering every call with
the string result `"done"`. -/
def okBackend (url : String) (ts : List ToolDescriptor) : Backend :=
  { base_url := url, reprStr := "<Client " ++ url ++ ">", connectOk := true,
    listToolsAgg := some ts, listToolsScan := some ts,
    callTool := fun _ _ => Except.ok (JVal.str "done") }

/-- A backend whose connection cannot be opened. -/
def badConnectBackend (url : String) : Backend :=
  { base_url := url, reprStr := "<Client " ++ url ++ ">", connectOk := false,
    listToolsAgg := none, listToolsScan := none,
    callTool := fun _ _ => Except.error "unreachable" }

/-- A backend that connects but whose `list_tools()` raises every time. -/
def badListBackend (url : String) : Backend :=
  { base_url := url, reprStr := "<Client " ++ url ++ ">", connectOk := true,
    listToolsAgg := none, listToolsScan := none,
    callTool := fun _ _ => Except.error "boom" }

/-- A backend exposing catalog `ts` whose `call_tool` raises. -/
def failCallBackend (url : String) (ts : List ToolDescriptor) : Backend :=
  { base_url := url, reprStr := "<Client " ++ url ++ ">", connectOk := true,
    listToolsAgg := some ts, listToolsScan := some ts,
    callTool := fun _ _ => Except.error "db locked" }

/-- An environment with the API key and exactly one configured endpoint. -/
def envOne : Env :=
  { GOOGLE_API_KEY := some "key", FASTMCP_URL := some "good://", FASTMCP_FOODCARD_URL := none }

/-- An environment whose first endpoint is the unreachable one. -/
def envTwo : Env :=
  { GOOGLE_API_KEY := some "key", FASTMCP_URL := some "bad://", FASTMCP_FOODCARD_URL := some "good://" }

/-- A world in which `bad://` refuses connections and every other address
hosts a healthy backend with one tool. -/
def mkClientSample (u : String) : Backend :=
  if u = "bad://" then badConnectBackend u else okBackend u [tdOf "add_expense"]

/-- A model whose call succeeds with the no-tool decision text. -/
def genNoTool : String → JVal → Except String String :=
  fun _ _ => Except.ok "json"

/-- `json.loads` for the no-tool decision text. -/
def loadsNoTool : String → Except String JVal :=
  fun _ => Except.ok (JVal.obj [("tool", JVal.null), ("params", JVal.obj [])])

/-! Claim theorems. -/

/-- C2: whenever the model call or the JSON parsing of its reply fails
(network error, malformed JSON, schema violation raised by the client
library), `interpret_with_gemini` does not propagate the exception — it
is a total function into decisions — and returns the fallback decision
with a null tool and empty params. -/
theorem C2_model_failure_returns_fallback (today : String) (msg : JVal)
    (tools : List ToolDescriptor)
    (generate : String → JVal → Except String String)
    (jsonLoads : String → Except String JVal) (e : String)
    (h : generate (system_instruction today tools) msg >>= jsonLoads =
      Except.error e) :
    interpret_with_gemini today msg tools generate jsonLoads =
      JVal.obj [("tool", JVal.null), ("params", JVal.obj [])] := by
  simp only [interpret_with_gemini, h, fallbackDecision]

/-- Witness for C2 at a concrete failing model call. -/
theorem C2_model_failure_returns_fallback_witness :
    interpret_with_gemini "2026-10-12" (JVal.str "hi") []
        (fun _ _ => Except.error "network error")
        (fun s => Except.ok (JVal.str s)) =
      JVal.obj [("tool", JVal.null), ("params", JVal.obj [])] :=
  C2_model_failure_returns_fallback _ _ _ _ _ "network error" rfl

/-- C9: the rendered block of a tool descriptor is exactly its name,
description and parameters line; the parameters line is `None` when the
schema declares no properties and otherwise the semicolon-joined rendered
parameters; a parameter with no declared type is rendered with type
`string`. -/
theorem C9_prompt_block_rendering (t : ToolDescriptor) :
    toolBlock t = "- Name: " ++ t.name ++ "\n  Description: " ++ t.description
        ++ "\n  Parameters: " ++ paramsLine t
    ∧ (t.inputSchema.properties = [] → paramsLine t = "None")
    ∧ (t.inputSchema.properties ≠ [] →
        paramsLine t =
          String.intercalate "; " (t.inputSchema.properties.map renderParam))
    ∧ ∀ nm sch, sch.type? = none →
        renderParam (nm, sch) =
          renderParam (nm, { sch with type? := some "string" }) := by
  refine ⟨rfl, ?_, ?_, ?_⟩
  · intro h
    simp [paramsLine, h]
  · intro h
    simp [paramsLine, List.isEmpty_iff, h]
  · intro nm sch h1
    simp [renderParam, h1]

/-- Witness for C9: a parameterless tool renders `None`, and an untyped
parameter defaults to `string`. -/
theorem C9_prompt_block_rendering_witness :
    paramsLine (tdOf "list_expenses") = "None" ∧
    renderParam ("note", { type? := none, desc? := none }) =
      renderParam ("note", { type? := some "string", desc? := none }) := by
  constructor
  · exact (C9_prompt_block_rendering (tdOf "list_expenses")).2.1 rfl
  · exact (C9_prompt_block_rendering (tdOf "x")).2.2.2 "note"
      { type? := none, desc? := none } rfl

/-- C3: a decision whose `tool` is null or the string `"None"`
short-circuits: the dispatcher returns exactly the no-match envelope and
its trace is empty — no catalog lookup, no invocation. -/
theorem C3_null_or_none_short_circuits (clients : List Backend)
    (d : List (String × JVal))
    (h : dictGet d "tool" = some JVal.null ∨
      dictGet d "tool" = some (JVal.str "None")) :
    dispatch clients (JVal.obj d) =
      (HTTPResult.ok [("tool", JVal.null), ("params", JVal.obj []),
        ("result", JVal.str "No matching tool found.")], []) := by
  rcases h with h | h <;>
    simp [dispatch, h, pyTruthyOpt, pyTruthy, strEqJ]

/-- Witness for C3 at a concrete `"None"` decision with a live backend. -/
theorem C3_null_or_none_short_circuits_witness :
    dispatch [okBackend "good://" [tdOf "add_expense"]]
        (JVal.obj [("tool", JVal.str "None"), ("params", JVal.obj [])]) =
      (HTTPResult.ok [("tool", JVal.null), ("params", JVal.obj []),
        ("result", JVal.str "No matching tool found.")], []) :=
  C3_null_or_none_short_circuits _ _ (Or.inr rfl)

/-- C10: any falsy `tool` value — missing key, empty string, and the
other falsy JSON values — short-circuits exactly like null or `"None"`,
with an empty trace; and when the `params` key is absent, the decision is
dispatched with the empty parameter object (both in the miss envelope and
as the argument passed to the tool execution). -/
theorem C10_falsy_tool_and_params_default (clients : List Backend)
    (d : List (String × JVal)) :
    (pyTruthyOpt (dictGet d "tool") = false →
      dispatch clients (JVal.obj d) =
        (HTTPResult.ok [("tool", JVal.null), ("params", JVal.obj []),
          ("result", JVal.str "No matching tool found.")], []))
    ∧ ∀ nm, dictGet d "tool" = some (JVal.str nm) → nm ≠ "" → nm ≠ "None" →
        dictGet d "params" = none →
        dispatch clients (JVal.obj d) =
          (match findOwner (some (JVal.str nm)) clients with
           | (none, evs) =>
             (HTTPResult.ok [("tool", JVal.str nm), ("params", JVal.obj []),
               ("result", JVal.str "Tool not found in any client.")], evs)
           | (some c, evs) =>
             (executeTool c (JVal.str nm) (JVal.obj []),
              evs ++ [Event.invoke c.base_url])) := by
  constructor
  · intro h
    simp [dispatch, h]
  · intro nm htool hne hnN hparams
    have hemp : nm.isEmpty = false := by
      rcases hb : nm.isEmpty with _ | _
      · rfl
      · exact absurd ((String.isEmpty_iff nm).mp hb) hne
    cases hfo : findOwner (some (JVal.str nm)) clients with
    | mk o evs =>
      cases o <;>
        simp [dispatch, htool, hparams, pyTruthyOpt, pyTruthy, hemp,
          strEqJ, hnN, hfo]

/-- Witness for C10: an empty-string tool short-circuits, and an absent
`params` key dispatches the empty object to the owning backend. -/
theorem C10_falsy_tool_and_params_default_witness :
    dispatch [okBackend "good://" [tdOf "add_expense"]]
        (JVal.obj [("tool", JVal.str "")]) =
      (HTTPResult.ok [("tool", JVal.null), ("params", JVal.obj []),
        ("result", JVal.str "No matching tool found.")], [])
    ∧ dispatch [okBackend "good://" [tdOf "add_expense"]]
        (JVal.obj [("tool", JVal.str "add_expense")]) =
      (match findOwner (some (JVal.str "add_expense"))
          [okBackend "good://" [tdOf "add_expense"]] with
       | (none, evs) =>
         (HTTPResult.ok [("tool", JVal.str "add_expense"),
           ("params", JVal.obj []),
           ("result", JVal.str "Tool not found in any client.")], evs)
       | (some c, evs) =>
         (executeTool c (JVal.str "add_expense") (JVal.obj []),
          evs ++ [Event.invoke c.base_url])) :=
  ⟨(C10_falsy_tool_and_params_default _ _).1 rfl,
   (C10_falsy_tool_and_params_default _ _).2 "add_expense" rfl
     (by decide) (by decide) rfl⟩

/-- `strEqJ` against a string value is string equality (flipped). -/
theorem strEqJ_str (nm s : String) :
    strEqJ (some (JVal.str nm)) s = decide (s = nm) := by
  simp [strEqJ, eq_comm]

/-- The first component of the ownership scan is `List.find?` of the
ownership predicate: the first backend in configuration order whose
(successful) scan catalog contains the name. -/
theorem findOwner_fst_eq_find (nm : String) (clients : List Backend) :
    (findOwner (some (JVal.str nm)) clients).1 =
      clients.find? (ownsTool nm) := by
  induction clients with
  | nil => rfl
  | cons c rest ih =>
    by_cases ho : ownsTool nm c
    · rcases hscan : c.listToolsScan with _ | ts
      · rw [ownsTool, hscan] at ho
        exact absurd ho (by simp)
      · have hany : (ts.any fun t => strEqJ (some (JVal.str nm)) t.name)
            = true := by
          rw [ownsTool, hscan] at ho
          simpa [strEqJ_str] using ho
        simp [findOwner, hscan, hany, List.find?_cons_of_pos _ ho]
    · rcases hscan : c.listToolsScan with _ | ts
      · simp [findOwner, hscan, List.find?_cons_of_neg _ ho, ih]
      · have hany : (ts.any fun t => strEqJ (some (JVal.str nm)) t.name)
            = false := by
          rw [ownsTool, hscan] at ho
          simpa [strEqJ_str] using ho
        simp [findOwner, hscan, hany, List.find?_cons_of_neg _ ho, ih]

/-- Every event left by the ownership scan is a catalog fetch. -/
theorem findOwner_events_are_scans (tn : Option JVal)
    (clients : List Backend) :
    ∀ e ∈ (findOwner tn clients).2, ∃ u, e = Event.listScan u := by
  induction clients with
  | nil => intro e he; cases he
  | cons c rest ih =>
    intro e he
    cases h : c.listToolsScan with
    | none =>
      rw [findOwner, h] at he
      simp at he
      rcases he with he | he
      · exact ⟨c.base_url, he⟩
      · exact ih e he
    | some ts =>
      rw [findOwner, h] at he
      by_cases hany : ts.any (fun t => strEqJ tn t.name)
      · simp [hany] at he
        exact ⟨c.base_url, he⟩
      · simp [hany] at he
        rcases he with he | he
        · exact ⟨c.base_url, he⟩
        · exact ih e he

/-- C1: when several backends expose the decided tool name, the owner is
the first backend in configuration order whose scan catalog contains a
descriptor with that name, and the lone invocation in the request trace
targets exactly that backend. -/
theorem C1_first_owner_in_config_order (clients : List Backend)
    (d : List (String × JVal)) (nm : String) (c : Backend)
    (htool : dictGet d "tool" = some (JVal.str nm))
    (hne : nm ≠ "") (hnN : nm ≠ "None")
    (_hdup : 2 ≤ clients.countP (ownsTool nm))
    (hfirst : clients.find? (ownsTool nm) = some c) :
    (findOwner (some (JVal.str nm)) clients).1 = some c
    ∧ (dispatch clients (JVal.obj d)).2.filter Event.isInvoke =
        [Event.invoke c.base_url] := by
  have hfo1 : (findOwner (some (JVal.str nm)) clients).1 = some c := by
    rw [findOwner_fst_eq_find]; exact hfirst
  refine ⟨hfo1, ?_⟩
  have hemp : nm.isEmpty = false := by
    rcases hb : nm.isEmpty with _ | _
    · rfl
    · exact absurd ((String.isEmpty_iff nm).mp hb) hne
  have hscans := findOwner_events_are_scans (some (JVal.str nm)) clients
  cases hfo : findOwner (some (JVal.str nm)) clients with
  | mk o evs =>
    rw [hfo] at hfo1 hscans
    simp only at hfo1
    subst hfo1
    have hdis : dispatch clients (JVal.obj d) =
        (executeTool c (JVal.str nm) ((dictGet d "params").getD (JVal.obj [])),
         evs ++ [Event.invoke c.base_url]) := by
      simp [dispatch, htool, pyTruthyOpt, pyTruthy, hemp, strEqJ, hnN, hfo]
    rw [hdis]
    simp only [List.filter_append]
    have hnil : evs.filter Event.isInvoke = [] := by
      rw [List.filter_eq_nil_iff]
      intro e he
      rcases hscans e he with ⟨u, rfl⟩
      simp [Event.isInvoke]
    rw [hnil]
    rfl

/-- Witness for C1: two backends both exposing `dup`; the first one is
selected and invoked. -/
theorem C1_first_owner_in_config_order_witness :
    (findOwner (some (JVal.str "dup"))
        [okBackend "a://" [tdOf "dup"], okBackend "b://" [tdOf "dup"]]).1 =
      some (okBackend "a://" [tdOf "dup"])
    ∧ (dispatch [okBackend "a://" [tdOf "dup"], okBackend "b://" [tdOf "dup"]]
        (JVal.obj [("tool", JVal.str "dup"),
          ("params", JVal.obj [])])).2.filter Event.isInvoke =
      [Event.invoke (okBackend "a://" [tdOf "dup"]).base_url] :=
  C1_first_owner_in_config_order
    [okBackend "a://" [tdOf "dup"], okBackend "b://" [tdOf "dup"]]
    [("tool", JVal.str "dup"), ("params", JVal.obj [])] "dup"
    (okBackend "a://" [tdOf "dup"]) rfl (by decide) (by decide)
    (by decide) rfl

/-- C4: when the decided tool name is owned by no backend at scan
time — backends whose scan fetch raises counting as owning nothing — the
dispatcher raises nothing, invokes nothing, and returns the
tool-not-found envelope carrying the decided tool and params. -/
theorem C4_unowned_tool_reports_missing (clients : List Backend)
    (d : List (String × JVal)) (nm : String)
    (htool : dictGet d "tool" = some (JVal.str nm))
    (hne : nm ≠ "") (hnN : nm ≠ "None")
    (habs : ∀ c ∈ clients, ∀ ts, c.listToolsScan = some ts →
      ∀ t ∈ ts, t.name ≠ nm) :
    dispatch clients (JVal.obj d) =
      (HTTPResult.ok [("tool", JVal.str nm),
        ("params", (dictGet d "params").getD (JVal.obj [])),
        ("result", JVal.str "Tool not found in any client.")],
       (findOwner (some (JVal.str nm)) clients).2)
    ∧ ∀ e ∈ (findOwner (some (JVal.str nm)) clients).2,
        e.isInvoke = false := by
  have hnone : clients.find? (ownsTool nm) = none := by
    rw [List.find?_eq_none]
    intro c hc
    have hof : ownsTool nm c = false := by
      rcases hscan : c.listToolsScan with _ | ts
      · simp [ownsTool, hscan]
      · simp only [ownsTool, hscan]
        rw [Bool.eq_false_iff]
        intro hany
        rw [List.any_eq_true] at hany
        obtain ⟨t, ht, hteq⟩ := hany
        exact habs c hc ts hscan t ht (by simpa using hteq)
    simp [hof]
  have hemp : nm.isEmpty = false := by
    rcases hb : nm.isEmpty with _ | _
    · rfl
    · exact absurd ((String.isEmpty_iff nm).mp hb) hne
  have hfo1 : (findOwner (some (JVal.str nm)) clients).1 = none := by
    rw [findOwner_fst_eq_find]; exact hnone
  have hscans := findOwner_events_are_scans (some (JVal.str nm)) clients
  constructor
  · cases hfo : findOwner (some (JVal.str nm)) clients with
    | mk o evs =>
      rw [hfo] at hfo1
      simp only at hfo1
      subst hfo1
      simp [dispatch, htool, pyTruthyOpt, pyTruthy, hemp, strEqJ, hnN, hfo]
  · intro e he
    rcases hscans e he with ⟨u, rfl⟩
    simp [Event.isInvoke]

/-- Witness for C4: a failing-scan backend plus a healthy one, neither
owning `missing_tool`. -/
theorem C4_unowned_tool_reports_missing_witness :
    dispatch [badListBackend "x://", okBackend "good://" [tdOf "add_expense"]]
        (JVal.obj [("tool", JVal.str "missing_tool"),
          ("params", JVal.obj [])]) =
      (HTTPResult.ok [("tool", JVal.str "missing_tool"),
        ("params", JVal.obj []),
        ("result", JVal.str "Tool not found in any client.")],
       (findOwner (some (JVal.str "missing_tool"))
         [badListBackend "x://",
          okBackend "good://" [tdOf "add_expense"]]).2) :=
  (C4_unowned_tool_reports_missing
    [badListBackend "x://", okBackend "good://" [tdOf "add_expense"]]
    [("tool", JVal.str "missing_tool"), ("params", JVal.obj [])]
    "missing_tool" rfl (by decide) (by decide)
    (by
      intro c hc ts hscan t ht
      simp only [List.mem_cons, List.mem_singleton] at hc
      rcases hc with rfl | rfl | hc
      · simp [badListBackend] at hscan
      · simp only [okBackend] at hscan
        injection hscan with hts
        subst hts
        simp only [List.mem_singleton] at ht
        subst ht
        decide
      · cases hc)).1

/-- C5: when every connection opens, the aggregation result is exactly
the in-order concatenation of each backend's successful catalog — a
backend whose listing raises contributes the empty list — so no listing
failure hides another backend's descriptors; if every listing fails the
merged catalog is empty, and every successfully listed descriptor is a
member of the merged catalog. -/
theorem C5_aggregation_tolerates_listing_failures (clients : List Backend)
    (hconn : ∀ c ∈ clients, c.connectOk = true) :
    gatherTools clients =
      (Except.ok (clients.flatMap fun c => c.listToolsAgg.getD []),
       aggTrace clients)
    ∧ ((∀ c ∈ clients, c.listToolsAgg = none) →
        (gatherTools clients).1 = Except.ok [])
    ∧ ∀ c ∈ clients, ∀ ts, c.listToolsAgg = some ts →
        ∀ t ∈ ts, t ∈ clients.flatMap fun c2 => c2.listToolsAgg.getD [] := by
  have main : gatherTools clients =
      (Except.ok (clients.flatMap fun c => c.listToolsAgg.getD []),
       aggTrace clients) := by
    induction clients with
    | nil => rfl
    | cons c rest ih =>
      have hc : c.connectOk = true := hconn c (by simp)
      have hrest : ∀ c2 ∈ rest, c2.connectOk = true :=
        fun c2 h2 => hconn c2 (by simp [h2])
      cases hta : c.listToolsAgg <;>
        simp [gatherTools, hc, ih hrest, aggTrace, hta, Except.map]
  refine ⟨main, ?_, ?_⟩
  · intro hall
    have hnil : (clients.flatMap fun c => c.listToolsAgg.getD []) = [] := by
      rw [List.flatMap_eq_nil_iff]
      intro c hc
      simp [hall c hc]
    rw [main, hnil]
  · intro c hc ts hts t ht
    exact List.mem_flatMap.mpr ⟨c, hc, by simp [hts, ht]⟩

/-- Witness for C5: a healthy backend followed by one whose listing
raises; the merged catalog is the healthy backend's catalog. -/
theorem C5_aggregation_tolerates_listing_failures_witness :
    gatherTools [okBackend "a://" [tdOf "f"], badListBackend "b://"] =
      (Except.ok [tdOf "f"],
       aggTrace [okBackend "a://" [tdOf "f"], badListBackend "b://"]) :=
  (C5_aggregation_tolerates_listing_failures
    [okBackend "a://" [tdOf "f"], badListBackend "b://"]
    (by decide)).1

/-- C6 counterexample: with the first configured backend refusing its
connection, aggregation stops at that backend — the second backend is
never connected to or queried (its events are absent from the trace) —
and at the endpoint level the exception escapes the handler, so a
connect failure on one backend does abort the processing of the others. -/
theorem C6_counterexample :
    gatherTools [badConnectBackend "bad://",
        okBackend "good://" [tdOf "add_expense"]] =
      (Except.error "connect failed", [Event.connect "bad://"])
    ∧ interpret envTwo mkClientSample "2026-10-12" genNoTool loadsNoTool
        [("message", JVal.str "hi")] =
      (HTTPResult.unhandled "connect failed", [Event.connect "bad://"]) :=
  ⟨rfl, rfl⟩

/-- C6 amended: backends are opened one at a time in configuration
order, and listing failures on already-connected backends are tolerated,
but a failure to open a connection propagates: aggregation ends with the
failing backend's connect attempt and the remaining backends are never
processed. -/
theorem C6_amended_connect_failure_aborts (pre post : List Backend)
    (b : Backend) (hpre : ∀ c ∈ pre, c.connectOk = true)
    (hb : b.connectOk = false) :
    gatherTools (pre ++ b :: post) =
      (Except.error "connect failed",
       aggTrace pre ++ [Event.connect b.base_url]) := by
  induction pre with
  | nil => simp [gatherTools, hb, aggTrace]
  | cons c rest ih =>
    have hc : c.connectOk = true := hpre c (by simp)
    have hrest : ∀ c2 ∈ rest, c2.connectOk = true :=
      fun c2 h2 => hpre c2 (by simp [h2])
    cases hta : c.listToolsAgg <;>
      simp [gatherTools, hc, ih hrest, aggTrace, hta, Except.map]

/-- Witness for the amended C6: the backend after the unreachable one is
never processed. -/
theorem C6_amended_connect_failure_aborts_witness :
    gatherTools [okBackend "good://" [tdOf "f"], badConnectBackend "bad://",
        okBackend "c://" [tdOf "g"]] =
      (Except.error "connect failed",
       aggTrace [okBackend "good://" [tdOf "f"]]
         ++ [Event.connect "bad://"]) :=
  C6_amended_connect_failure_aborts [okBackend "good://" [tdOf "f"]]
    [okBackend "c://" [tdOf "g"]] (badConnectBackend "bad://")
    (by decide) rfl

/-- C7: once an owner is found, a raising invocation yields an HTTP 500
whose detail names the tool, the owning client and the cause — the one
unswallowed failure path — while a successful invocation yields the
envelope with the result and `executed_from` set to the owner's
address. -/
theorem C7_execution_outcome (clients : List Backend)
    (d : List (String × JVal)) (nm : String) (c : Backend)
    (htool : dictGet d "tool" = some (JVal.str nm))
    (hne : nm ≠ "") (hnN : nm ≠ "None")
    (hown : (findOwner (some (JVal.str nm)) clients).1 = some c) :
    (∀ e, c.callTool (JVal.str nm)
        ((dictGet d "params").getD (JVal.obj [])) = Except.error e →
      (dispatch clients (JVal.obj d)).1 =
        HTTPResult.httpError 500
          ("Error calling tool " ++ apos ++ nm ++ apos ++ " on "
            ++ c.reprStr ++ ": " ++ e))
    ∧ ∀ res, c.callTool (JVal.str nm)
        ((dictGet d "params").getD (JVal.obj [])) = Except.ok res →
      (dispatch clients (JVal.obj d)).1 =
        HTTPResult.ok [("tool", JVal.str nm),
          ("params", (dictGet d "params").getD (JVal.obj [])),
          ("result", res), ("executed_from", JVal.str c.base_url)] := by
  have hemp : nm.isEmpty = false := by
    rcases hb : nm.isEmpty with _ | _
    · rfl
    · exact absurd ((String.isEmpty_iff nm).mp hb) hne
  cases hfo : findOwner (some (JVal.str nm)) clients with
  | mk o evs =>
    rw [hfo] at hown
    simp only at hown
    subst hown
    constructor
    · intro e he
      simp [dispatch, htool, pyTruthyOpt, pyTruthy, hemp, strEqJ, hnN, hfo,
        executeTool, he, pyStr]
    · intro res hres
      simp [dispatch, htool, pyTruthyOpt, pyTruthy, hemp, strEqJ, hnN, hfo,
        executeTool, hres]

/-- Witness for C7: a raising invocation surfaces the 500 detail; a
successful one returns the full envelope. -/
theorem C7_execution_outcome_witness :
    (dispatch [failCallBackend "f://" [tdOf "add_expense"]]
        (JVal.obj [("tool", JVal.str "add_expense"),
          ("params", JVal.obj [])])).1 =
      HTTPResult.httpError 500
        ("Error calling tool " ++ apos ++ "add_expense" ++ apos ++ " on "
          ++ (failCallBackend "f://" [tdOf "add_expense"]).reprStr
          ++ ": " ++ "db locked")
    ∧ (dispatch [okBackend "g://" [tdOf "add_expense"]]
        (JVal.obj [("tool", JVal.str "add_expense"),
          ("params", JVal.obj [])])).1 =
      HTTPResult.ok [("tool", JVal.str "add_expense"),
        ("params", JVal.obj []), ("result", JVal.str "done"),
        ("executed_from", JVal.str "g://")] :=
  ⟨(C7_execution_outcome [failCallBackend "f://" [tdOf "add_expense"]]
      [("tool", JVal.str "add_expense"), ("params", JVal.obj [])]
      "add_expense" (failCallBackend "f://" [tdOf "add_expense"])
      rfl (by decide) (by decide) rfl).1 "db locked" rfl,
   (C7_execution_outcome [okBackend "g://" [tdOf "add_expense"]]
      [("tool", JVal.str "add_expense"), ("params", JVal.obj [])]
      "add_expense" (okBackend "g://" [tdOf "add_expense"])
      rfl (by decide) (by decide) rfl).2 (JVal.str "done") rfl⟩

/-- C8 counterexample: a whitespace-only message `" "` is truthy in
Python, so the request is NOT rejected: the backend is connected and
queried, the model is called, and a 200 envelope is returned. -/
theorem C8_counterexample :
    interpret envOne mkClientSample "2026-10-12" genNoTool loadsNoTool
        [("message", JVal.str " ")] =
      (HTTPResult.ok [("tool", JVal.null), ("params", JVal.obj []),
        ("result", JVal.str "No matching tool found.")],
       [Event.connect "good://", Event.listAgg "good://",
        Event.modelCall]) := rfl

/-- C8 amended: a request whose `message` field is missing or falsy (in
particular the empty string) is rejected with the 400 missing-field
error before any backend connection or model call; whitespace-only
non-empty messages are not rejected. -/
theorem C8_amended_falsy_message_rejected (env : Env)
    (mkClient : String → Backend) (today : String)
    (generate : String → JVal → Except String String)
    (jsonLoads : String → Except String JVal)
    (user_input : List (String × JVal))
    (h : pyTruthyOpt (dictGet user_input "message") = false) :
    interpret env mkClient today generate jsonLoads user_input =
      (HTTPResult.httpError 400
        ("Missing " ++ apos ++ "message" ++ apos ++ " field"), []) := by
  simp [interpret, h]

/-- Witness for the amended C8 at an empty-string message. -/
theorem C8_amended_falsy_message_rejected_witness :
    interpret envOne mkClientSample "2026-10-12" genNoTool loadsNoTool
        [("message", JVal.str "")] =
      (HTTPResult.httpError 400
        ("Missing " ++ apos ++ "message" ++ apos ++ " field"), []) :=
  C8_amended_falsy_message_rejected envOne mkClientSample "2026-10-12"
    genNoTool loadsNoTool [("message", JVal.str "")] rfl
